import Mathlib

/-!
Shallow embedding of `src/main.py` (the SyftBox Protoss-summary app).

The script loads `patterns.json` (a mapping from pattern id to pattern
record), filters the records whose `race` field compares case-insensitively
equal to `"protoss"`, counts the filtered records per `strategy_type`
(falsy values default to `"unknown"`), builds the three-field result
dictionary and writes it as JSON under the datasite's `public/` folder.

Records are modelled with the two fields the script actually reads
(`race`, `strategy_type`) as three-valued JSON fields (absent, null, or a
string), plus an opaque bag `other` standing for every remaining field of
the raw record (signature steps, timestamps, comments, ...).  File-system
paths are modelled as lists of components, mirroring `pathlib.Path`.
-/

namespace ProtossSummary

/-- A JSON field as stored in a record object: the key may be absent, may be
bound to `null`, or may be bound to a string. -/
inductive FieldVal where
  | absent
  | null
  | str (s : String)
deriving DecidableEq, Repr

/-- Models Python `entry.get(key)`: returns `None` both when the key is
absent and when its value is `null`, and the string otherwise. -/
def pyGet : FieldVal → Option String
  | .absent => none
  | .null => none
  | .str s => some s

/-- Models the Python expression `x or d` for `x` a `None`-or-string value:
`None` and the empty string are falsy, anything else is returned as is. -/
def pyOr (x : Option String) (d : String) : String :=
  match x with
  | none => d
  | some s => if s = "" then d else s

/-- One pattern record, as accessed by `main.py`: the `race` and
`strategy_type` fields, and all other fields collected opaquely. -/
structure Record where
  race : FieldVal
  strategy_type : FieldVal
  other : List (String × String)
deriving DecidableEq, Repr

/-- The `patterns.json` content: a mapping from pattern id to record,
in insertion order. -/
abbrev Dataset := List (String × Record)

/-- The filter predicate of step 5: `(entry.get("race") or "").lower() == "protoss"`. -/
def raceMatches (entry : Record) : Bool :=
  (pyOr (pyGet entry.race) "").toLower == "protoss"

/-- Step 5: `protoss_patterns`, the sub-mapping of entries whose race matches. -/
def protoss_patterns (patterns : Dataset) : Dataset :=
  patterns.filter (fun p => raceMatches p.2)

/-- The label a record is grouped under in step 6:
`entry.get("strategy_type") or "unknown"`. -/
def subtypeLabel (entry : Record) : String :=
  pyOr (pyGet entry.strategy_type) "unknown"

/-- Model of `collections.Counter` on a list of labels: one entry per
distinct label, holding its number of occurrences. -/
def counterOf (ls : List String) : List (String × Nat) :=
  ls.dedup.map (fun k => (k, ls.count k))

/-- Step 6: `strategy_breakdown = Counter((entry.get("strategy_type") or "unknown")
for entry in protoss_patterns.values())`. -/
def strategy_breakdown (pp : Dataset) : List (String × Nat) :=
  counterOf (pp.map (fun p => subtypeLabel p.2))

/-- Count associated to a label in a breakdown mapping (0 when absent). -/
def lookupCount (bs : List (String × Nat)) (k : String) : Nat :=
  (bs.lookup k).getD 0

/-- A JSON value appearing in the result dictionary: an integer or an
object mapping strings to integers. -/
inductive JVal where
  | num (n : Nat)
  | obj (kvs : List (String × Nat))
deriving DecidableEq, Repr

/-- Step 7: the `result` dictionary built by `main.py`, as an ordered
key-value list. -/
def result (patterns : Dataset) : List (String × JVal) :=
  [("total_patterns_in_dataset", .num patterns.length),
   ("protoss_pattern_count", .num (protoss_patterns patterns).length),
   ("protoss_strategy_breakdown", .obj (strategy_breakdown (protoss_patterns patterns)))]

/-- A filesystem path, as its list of components (mirroring `pathlib.Path`,
whose `/` operator appends a component). -/
abbrev Path := List String

/-- Rendering of a path as the string interpolated into messages. -/
def pathToString (p : Path) : String :=
  String.intercalate "/" p

/-- Configuration constant `OWNER_EMAIL`. -/
def OWNER_EMAIL : String := "kj@psistorm.com"

/-- Configuration constant `DATASET_REL_PATH = Path("semi-public") / "team-project"`. -/
def DATASET_REL_PATH : Path := ["semi-public", "team-project"]

/-- Configuration constant `OUTPUT_FILE = Path("public") / "protoss_summary.json"`. -/
def OUTPUT_FILE : Path := ["public", "protoss_summary.json"]

/-- Step 2: `datasite_root = syftbox_root / "datasites" / OWNER_EMAIL`.
The SyftBox root is the machine-dependent part and is kept abstract. -/
def datasite_root (syftbox_root : Path) : Path :=
  syftbox_root ++ ["datasites", OWNER_EMAIL]

/-- Step 3: `dataset_root = datasite_root / DATASET_REL_PATH`. -/
def dataset_root (syftbox_root : Path) : Path :=
  datasite_root syftbox_root ++ DATASET_REL_PATH

/-- Step 3: `patterns_path = dataset_root / "patterns.json"`. -/
def patterns_path (syftbox_root : Path) : Path :=
  dataset_root syftbox_root ++ ["patterns.json"]

/-- Step 8: `output_path = datasite_root / OUTPUT_FILE`. -/
def output_path (syftbox_root : Path) : Path :=
  datasite_root syftbox_root ++ OUTPUT_FILE

/-- The parent directory of the output file, `output_path.parent`. -/
def output_parent (syftbox_root : Path) : Path :=
  (output_path syftbox_root).dropLast

/-- The visible filesystem state: regular files with their content, and the
set of existing directories. -/
structure FS where
  files : List (Path × String)
  dirs : List Path
deriving DecidableEq, Repr

/-- The fatal errors the script can raise before producing output:
`FileNotFoundError` from step 3 and `json.JSONDecodeError` from step 4. -/
inductive RunError where
  | inputMissing (path : Path)
  | inputMalformed
deriving DecidableEq, Repr

/-- The message attached to each error; for `inputMissing` this is the
f-string of the `FileNotFoundError` raised in `main.py`. -/
def errorMessage : RunError → String
  | .inputMissing p =>
      "patterns.json not found at: " ++ pathToString p ++
      "\nEnsure the dataset files are in the expected SyftBox datasite folder."
  | .inputMalformed => "json.JSONDecodeError"

/-- Models `path.parent.mkdir(parents=True, exist_ok=True)` for the single
directory the script creates: registers it when absent. -/
def mkdirParents (fs : FS) (d : Path) : FS :=
  { fs with dirs := if d ∈ fs.dirs then fs.dirs else d :: fs.dirs }

/-- Models `path.open("w")` followed by a full write: the new content
shadows any previous file at that path. -/
def writeFile (fs : FS) (p : Path) (c : String) : FS :=
  { fs with files := (p, c) :: fs.files }

/-- JSON string quoting for the keys of the result object. -/
def quoteStr (s : String) : String := "\"" ++ s ++ "\""

/-- Rendering of a breakdown object, one `"key": count` entry per label. -/
def renderEntries (kvs : List (String × Nat)) : String :=
  String.intercalate ", " (kvs.map (fun kv => quoteStr kv.1 ++ ": " ++ toString kv.2))

/-- Rendering of a JSON value of the result dictionary. -/
def renderJVal : JVal → String
  | .num n => toString n
  | .obj kvs => "\x7b" ++ renderEntries kvs ++ "\x7d"

/-- Model of `json.dump(result, f, indent=2)`: a deterministic textual
serialization of the result dictionary. -/
def serializeResult (r : List (String × JVal)) : String :=
  "\x7b" ++
    String.intercalate ", " (r.map (fun kv => quoteStr kv.1 ++ ": " ++ renderJVal kv.2)) ++
  "\x7d"

/-- The whole run of `main()` over a filesystem state: existence check on
`patterns.json`, JSON load (the parser `jsonLoad` models the external
`json.load`, returning `none` on a decode error), filtering, aggregation,
directory creation and output write.  Returns the script's outcome and the
final filesystem state. -/
def run (syftbox_root : Path) (jsonLoad : String → Option Dataset) (fs : FS) :
    Except RunError Unit × FS :=
  match fs.files.lookup (patterns_path syftbox_root) with
  | none => (.error (.inputMissing (patterns_path syftbox_root)), fs)
  | some content =>
    match jsonLoad content with
    | none => (.error .inputMalformed, fs)
    | some patterns =>
      let fs1 := mkdirParents fs (output_parent syftbox_root)
      let fs2 := writeFile fs1 (output_path syftbox_root)
        (serializeResult (result patterns))
      (.ok (), fs2)

/-! Helper lemmas. -/

/-- Unfolding of `String.toLower` into a map over the character list, which
lets concrete instances evaluate. -/
lemma toLower_eq (s : String) : s.toLower = ⟨s.data.map Char.toLower⟩ :=
  String.map_eq Char.toLower s

/-- Looking a key up in a list tabulating a function over distinct keys. -/
lemma lookup_map_pair (l : List String) (f : String → Nat) (k : String) :
    (l.map (fun x => (x, f x))).lookup k = if k ∈ l then some (f k) else none := by
  induction l with
  | nil => simp
  | cons a t ih =>
    by_cases h : k = a
    · subst h; simp [List.lookup]
    · simp [List.lookup, ih, h, beq_eq_false_iff_ne.mpr h]

/-- The count our Counter model reports for a label is the label's number of
occurrences in the underlying list (0 when the label never occurs). -/
lemma lookupCount_counterOf (ls : List String) (k : String) :
    lookupCount (counterOf ls) k = ls.count k := by
  unfold lookupCount counterOf
  rw [lookup_map_pair]
  by_cases h : k ∈ ls.dedup
  · simp [h]
  · have h' : k ∉ ls := fun hk => h (List.mem_dedup.mpr hk)
    simp [h, List.count_eq_zero.mpr h']

/-- Sum of a pointwise sum of two functions mapped over a list. -/
lemma sum_map_add (ks : List String) (f g : String → Nat) :
    (ks.map (fun x => f x + g x)).sum = (ks.map f).sum + (ks.map g).sum := by
  induction ks with
  | nil => simp
  | cons a t ih => simp [ih]; omega

/-- Over a duplicate-free list containing `a`, the indicator of `a` sums to 1. -/
lemma sum_map_indicator (a : String) : ∀ (ks : List String), ks.Nodup → a ∈ ks →
    (ks.map (fun x => if a == x then 1 else 0)).sum = 1 := by
  intro ks
  induction ks with
  | nil => intro _ ha; simp at ha
  | cons b t ih =>
    intro hnd ha
    by_cases hab : a = b
    · have hb : b ∉ t := (List.nodup_cons.mp hnd).1
      have hz : (t.map (fun x => if a == x then 1 else 0)).sum = 0 := by
        rw [List.sum_eq_zero]
        intro n hn
        rcases List.mem_map.mp hn with ⟨y, hy, hny⟩
        have hay : a ≠ y := by
          intro h
          rw [← h, hab] at hy
          exact hb hy
        simp [← hny, hay]
      rw [List.map_cons, List.sum_cons, hz, hab]
      simp
    · rcases List.mem_cons.mp ha with h | h
      · exact absurd h hab
      · rw [List.map_cons, List.sum_cons, ih (List.nodup_cons.mp hnd).2 h,
          beq_eq_false_iff_ne.mpr hab]
        simp

/-- Summing, over a duplicate-free list of keys covering a list `ls`, the
occurrence counts of each key gives back the length of `ls`. -/
lemma sum_map_count (ks : List String) (ls : List String) (hnd : ks.Nodup)
    (hcov : ∀ x ∈ ls, x ∈ ks) : (ks.map (fun k => ls.count k)).sum = ls.length := by
  induction ls with
  | nil => simp
  | cons a t ih =>
    have hcount : ∀ k, (a :: t).count k = t.count k + (if a == k then 1 else 0) := by
      intro k; rw [List.count_cons]
    have hsplit : (ks.map (fun k => (a :: t).count k)).sum
        = (ks.map (fun k => t.count k)).sum
          + (ks.map (fun k => if a == k then 1 else 0)).sum := by
      rw [← sum_map_add]
      simp only [hcount]
    rw [hsplit, ih (fun x hx => hcov x (List.mem_cons_of_mem a hx)),
      sum_map_indicator a ks hnd (hcov a (List.mem_cons_self a t))]
    simp

/-- The values of our Counter model sum to the length of the counted list. -/
lemma counterOf_sum (ls : List String) :
    ((counterOf ls).map Prod.snd).sum = ls.length := by
  unfold counterOf
  rw [List.map_map]
  exact sum_map_count ls.dedup ls (List.nodup_dedup ls)
    (fun x hx => List.mem_dedup.mpr hx)

/-- A record with its id erased and every field outside the two whitelisted
ones (`race` alias category, `strategy_type` alias subtype) deleted. -/
def scrubRecord (e : Record) : Record :=
  ⟨e.race, e.strategy_type, []⟩

/-- A dataset with all record ids erased and all non-whitelisted record
fields deleted. -/
def scrub (patterns : Dataset) : Dataset :=
  patterns.map (fun p => ("", scrubRecord p.2))

/-- Filtering commutes with scrubbing, because the filter reads only the
`race` field, which scrubbing preserves. -/
lemma protoss_patterns_scrub (patterns : Dataset) :
    protoss_patterns (scrub patterns) = scrub (protoss_patterns patterns) := by
  unfold protoss_patterns scrub
  rw [List.filter_map]
  rfl

/-- The grouping labels of a dataset are unchanged by scrubbing, because the
label reads only the `strategy_type` field, which scrubbing preserves. -/
lemma labels_scrub (pp : Dataset) :
    (scrub pp).map (fun p => subtypeLabel p.2) = pp.map (fun p => subtypeLabel p.2) := by
  unfold scrub
  rw [List.map_map]
  rfl

/-! Theorems settling the claims. -/

/-- Claim C1: for every dataset, the filter of step 5 selects exactly the
records whose `race` field, case-folded, equals `"protoss"`; records with
race `"Protoss"`, `"PROTOSS"` or `"protoss"` are all selected, a record with
race `"terran"` is never selected, and a record whose race is absent or
null is treated as the empty string and is never selected. -/
theorem filter_selects_exactly_protoss :
    (∀ (patterns : Dataset) (k : String) (e : Record),
        (k, e) ∈ protoss_patterns patterns ↔
          (k, e) ∈ patterns ∧ (pyOr (pyGet e.race) "").toLower = "protoss")
    ∧ (∀ st o, raceMatches ⟨.str "Protoss", st, o⟩ = true
        ∧ raceMatches ⟨.str "PROTOSS", st, o⟩ = true
        ∧ raceMatches ⟨.str "protoss", st, o⟩ = true
        ∧ raceMatches ⟨.str "terran", st, o⟩ = false)
    ∧ (∀ st o, pyOr (pyGet (Record.mk .absent st o).race) "" = ""
        ∧ pyOr (pyGet (Record.mk .null st o).race) "" = ""
        ∧ raceMatches ⟨.absent, st, o⟩ = false
        ∧ raceMatches ⟨.null, st, o⟩ = false) := by
  refine ⟨?_, ?_, ?_⟩
  · intro patterns k e
    simp [protoss_patterns, List.mem_filter, raceMatches]
  · intro st o
    refine ⟨?_, ?_, ?_, ?_⟩ <;> simp [raceMatches, pyGet, pyOr, toLower_eq]
  · intro st o
    refine ⟨rfl, rfl, ?_, ?_⟩ <;> simp [raceMatches, pyGet, pyOr, toLower_eq]

/-- Claim C1, witness: on a one-record dataset the filter keeps the Protoss
record, by the membership characterization. -/
theorem filter_selects_exactly_protoss_witness :
    ("p1", Record.mk (.str "Protoss") .absent [])
      ∈ protoss_patterns [("p1", Record.mk (.str "Protoss") .absent [])] :=
  (filter_selects_exactly_protoss.1
      [("p1", Record.mk (.str "Protoss") .absent [])] "p1"
      (Record.mk (.str "Protoss") .absent [])).2
    ⟨List.mem_singleton.mpr rfl, by simp [pyGet, pyOr, toLower_eq]⟩

/-- Claim C3: the `total_patterns_in_dataset` field of the result equals the
number of records in the dataset, regardless of how many records pass the
filter. -/
theorem total_counts_all_records (patterns : Dataset) :
    (result patterns).lookup "total_patterns_in_dataset"
      = some (.num patterns.length) := by
  simp [result, List.lookup]

/-- Claim C4: the values of the strategy breakdown sum to the number of
records selected by the filter. -/
theorem breakdown_values_sum_to_filtered_count (patterns : Dataset) :
    ((strategy_breakdown (protoss_patterns patterns)).map Prod.snd).sum
      = (protoss_patterns patterns).length := by
  unfold strategy_breakdown
  rw [counterOf_sum, List.length_map]

/-- The three-record input of the spec scenario for grouping:
`{"p1": {race Protoss, strategy_type economic_expansion},
"p2": {race Terran, strategy_type rush}, "p3": {race protoss}}`. -/
def scenarioDataset : Dataset :=
  [("p1", ⟨.str "Protoss", .str "economic_expansion", []⟩),
   ("p2", ⟨.str "Terran", .str "rush", []⟩),
   ("p3", ⟨.str "protoss", .absent, []⟩)]

/-- Claim C5: the breakdown groups the filtered records by `strategy_type`,
counting one per record per group, with a missing subtype counted under the
literal label `"unknown"`; on the spec scenario the result is total 3,
protoss count 2, and breakdown economic_expansion 1, unknown 1. -/
theorem breakdown_groups_by_subtype :
    (∀ (pp : Dataset) (k : String),
        lookupCount (strategy_breakdown pp) k
          = (pp.map (fun p => subtypeLabel p.2)).count k)
    ∧ (∀ r o, subtypeLabel ⟨r, .absent, o⟩ = "unknown")
    ∧ result scenarioDataset =
        [("total_patterns_in_dataset", .num 3),
         ("protoss_pattern_count", .num 2),
         ("protoss_strategy_breakdown",
           .obj [("economic_expansion", 1), ("unknown", 1)])] := by
  refine ⟨?_, ?_, ?_⟩
  · intro pp k
    exact lookupCount_counterOf (pp.map (fun p => subtypeLabel p.2)) k
  · intro r o
    rfl
  · simp [result, scenarioDataset, protoss_patterns, raceMatches, pyGet, pyOr,
      toLower_eq, strategy_breakdown, subtypeLabel, counterOf, List.filter,
      List.dedup]

/-- Claim C10: a filtered record whose `strategy_type` field is present but
empty, or present but null, is grouped under the literal label `"unknown"`,
exactly as if the field were absent. -/
theorem falsy_subtype_grouped_as_unknown (e : Record)
    (h : e.strategy_type = .str "" ∨ e.strategy_type = .null) :
    subtypeLabel e = "unknown"
    ∧ subtypeLabel e = subtypeLabel ⟨e.race, .absent, e.other⟩ := by
  rcases h with h | h <;> simp [subtypeLabel, pyGet, pyOr, h]

/-- Claim C10, witness: a record carrying an empty-string subtype gets the
label `"unknown"`, the same label as with the field absent. -/
theorem falsy_subtype_grouped_as_unknown_witness :
    subtypeLabel ⟨.str "protoss", .str "", []⟩ = "unknown"
    ∧ subtypeLabel ⟨.str "protoss", .str "", []⟩
        = subtypeLabel ⟨.str "protoss", .absent, []⟩ :=
  falsy_subtype_grouped_as_unknown ⟨.str "protoss", .str "", []⟩ (Or.inl rfl)

/-- Claim C2: the result never contains a record id, per-record step data or
any field outside the whitelist: it is unchanged when every record id and
every non-whitelisted record field is deleted from the input, its keys are
exactly the three aggregate keys, and every label appearing in the breakdown
is the subtype label of some record. -/
theorem summary_respects_whitelist :
    (∀ patterns : Dataset, result (scrub patterns) = result patterns)
    ∧ (∀ patterns : Dataset, (result patterns).map Prod.fst =
        ["total_patterns_in_dataset", "protoss_pattern_count",
         "protoss_strategy_breakdown"])
    ∧ (∀ (pp : Dataset) (kv : String × Nat), kv ∈ strategy_breakdown pp →
        ∃ p ∈ pp, kv.1 = subtypeLabel p.2) := by
  refine ⟨?_, ?_, ?_⟩
  · intro patterns
    unfold result
    rw [protoss_patterns_scrub]
    unfold strategy_breakdown
    rw [labels_scrub]
    simp [scrub]
  · intro patterns
    rfl
  · intro pp kv hkv
    unfold strategy_breakdown counterOf at hkv
    rcases List.mem_map.mp hkv with ⟨k, hk, hkkv⟩
    have hk' : k ∈ pp.map (fun p => subtypeLabel p.2) := List.mem_dedup.mp hk
    rcases List.mem_map.mp hk' with ⟨p, hp, hpk⟩
    exact ⟨p, hp, by rw [← hkkv, ← hpk]⟩

/-- Claim C2, witness: the breakdown of a one-record dataset consists of that
record's subtype label. -/
theorem summary_respects_whitelist_witness :
    ∃ p ∈ ([("x", Record.mk (.str "protoss") (.str "rush") [])] : Dataset),
      ("rush", 1).1 = subtypeLabel p.2 :=
  summary_respects_whitelist.2.2
    [("x", Record.mk (.str "protoss") (.str "rush") [])] ("rush", 1)
    (by simp [strategy_breakdown, counterOf, subtypeLabel, pyGet, pyOr, List.dedup])

/-- Claim C6 fails on the code: the result of the empty dataset carries the
three aggregate keys and no examples field at all, where the claim promises
an (empty) examples list. -/
theorem no_examples_field_counterexample :
    (result []).map Prod.fst =
      ["total_patterns_in_dataset", "protoss_pattern_count",
       "protoss_strategy_breakdown"]
    ∧ (result []).lookup "example_protoss_patterns" = none
    ∧ (result []).lookup "examples" = none := by
  refine ⟨rfl, ?_, ?_⟩ <;> simp [result, List.lookup]

/-- Claim C6 as amended: the result never contains an examples list; for
every dataset its keys are exactly the three aggregate keys and no examples
key is present, and the empty dataset yields total 0, protoss count 0 and an
empty breakdown. -/
theorem no_examples_field (patterns : Dataset) :
    (result patterns).map Prod.fst =
      ["total_patterns_in_dataset", "protoss_pattern_count",
       "protoss_strategy_breakdown"]
    ∧ (result patterns).lookup "example_protoss_patterns" = none
    ∧ (result patterns).lookup "examples" = none
    ∧ result [] =
        [("total_patterns_in_dataset", .num 0),
         ("protoss_pattern_count", .num 0),
         ("protoss_strategy_breakdown", .obj [])] := by
  refine ⟨rfl, ?_, ?_, rfl⟩ <;> simp [result, List.lookup]

/-- The dataset file and the output file live at distinct paths (their
component lists have different lengths below the common datasite root). -/
lemma patterns_path_ne_output_path (syftbox_root : Path) :
    patterns_path syftbox_root ≠ output_path syftbox_root := by
  intro h
  have hl := congrArg List.length h
  simp [patterns_path, dataset_root, datasite_root, output_path,
    DATASET_REL_PATH, OUTPUT_FILE] at hl

/-- Claim C7: when `patterns.json` is absent at the resolved path the run
aborts with a not-found error whose message contains the attempted path and
leaves the filesystem untouched, and when the file is present but its
content does not parse as the expected structure the run aborts with a parse
error and leaves the filesystem untouched. -/
theorem run_aborts_cleanly_on_bad_input (syftbox_root : Path)
    (jsonLoad : String → Option Dataset) (fs : FS) :
    (fs.files.lookup (patterns_path syftbox_root) = none →
      run syftbox_root jsonLoad fs
          = (.error (.inputMissing (patterns_path syftbox_root)), fs)
      ∧ ∃ a b, errorMessage (.inputMissing (patterns_path syftbox_root))
          = a ++ pathToString (patterns_path syftbox_root) ++ b)
    ∧ (∀ content, fs.files.lookup (patterns_path syftbox_root) = some content →
        jsonLoad content = none →
        run syftbox_root jsonLoad fs = (.error .inputMalformed, fs)) := by
  constructor
  · intro h
    exact ⟨by simp [run, h],
      "patterns.json not found at: ",
      "\nEnsure the dataset files are in the expected SyftBox datasite folder.",
      rfl⟩
  · intro content hc hp
    simp [run, hc, hp]

/-- Claim C7, witness: on an empty filesystem the run reports the missing
input and changes nothing, and on a filesystem whose dataset file does not
parse the run reports malformed input and changes nothing. -/
theorem run_aborts_cleanly_on_bad_input_witness :
    (run ["SyftBox"] (fun _ => none) ⟨[], []⟩
        = (.error (.inputMissing (patterns_path ["SyftBox"])), ⟨[], []⟩)
      ∧ ∃ a b, errorMessage (.inputMissing (patterns_path ["SyftBox"]))
          = a ++ pathToString (patterns_path ["SyftBox"]) ++ b)
    ∧ run ["SyftBox"] (fun _ => none)
          ⟨[(patterns_path ["SyftBox"], "not json")], []⟩
        = (.error .inputMalformed,
           ⟨[(patterns_path ["SyftBox"], "not json")], []⟩) := by
  constructor
  · exact (run_aborts_cleanly_on_bad_input ["SyftBox"] (fun _ => none) ⟨[], []⟩).1 rfl
  · exact (run_aborts_cleanly_on_bad_input ["SyftBox"] (fun _ => none)
        ⟨[(patterns_path ["SyftBox"], "not json")], []⟩).2 "not json"
      (by simp [List.lookup]) rfl

/-- Claim C8: the pipeline is a deterministic function of the input dataset:
running it a second time on the unchanged input rewrites the very same
summary content, so the output file's content after two runs is identical to
its content after one. -/
theorem second_run_writes_identical_summary (syftbox_root : Path)
    (jsonLoad : String → Option Dataset) (fs : FS) :
    ((run syftbox_root jsonLoad (run syftbox_root jsonLoad fs).2).2).files.lookup
        (output_path syftbox_root)
      = ((run syftbox_root jsonLoad fs).2).files.lookup (output_path syftbox_root) := by
  cases hfound : fs.files.lookup (patterns_path syftbox_root) with
  | none => simp [run, hfound]
  | some content =>
    cases hparse : jsonLoad content with
    | none => simp [run, hfound, hparse]
    | some patterns =>
      have hne : (patterns_path syftbox_root == output_path syftbox_root) = false :=
        beq_eq_false_iff_ne.mpr (patterns_path_ne_output_path syftbox_root)
      simp [run, hfound, hparse, writeFile, mkdirParents, List.lookup, hne]

/-- Claim C9: on a successful run the writer ensures the output file's
parent directory exists (creating it when absent) and unconditionally
overwrites the output file with the serialized summary, whatever the file
held before. -/
theorem writer_creates_dir_and_overwrites (syftbox_root : Path)
    (jsonLoad : String → Option Dataset) (fs : FS) (content : String)
    (patterns : Dataset)
    (hfound : fs.files.lookup (patterns_path syftbox_root) = some content)
    (hparse : jsonLoad content = some patterns) :
    output_parent syftbox_root ∈ ((run syftbox_root jsonLoad fs).2).dirs
    ∧ ((run syftbox_root jsonLoad fs).2).files.lookup (output_path syftbox_root)
        = some (serializeResult (result patterns)) := by
  constructor
  · simp only [run, hfound, hparse, writeFile, mkdirParents]
    by_cases h : output_parent syftbox_root ∈ fs.dirs <;> simp [h]
  · simp [run, hfound, hparse, writeFile, mkdirParents, List.lookup]

/-- Claim C9, witness: on a filesystem holding only the dataset file and no
`public` directory, the run creates the directory and writes the summary of
the parsed dataset, and a stale output file is overwritten. -/
theorem writer_creates_dir_and_overwrites_witness :
    output_parent []
        ∈ ((run [] (fun _ => some [])
            ⟨[(patterns_path [], "\x7b\x7d"), (output_path [], "stale")], []⟩).2).dirs
    ∧ ((run [] (fun _ => some [])
            ⟨[(patterns_path [], "\x7b\x7d"), (output_path [], "stale")], []⟩).2).files.lookup
          (output_path [])
        = some (serializeResult (result [])) :=
  writer_creates_dir_and_overwrites [] (fun _ => some [])
    ⟨[(patterns_path [], "\x7b\x7d"), (output_path [], "stale")], []⟩ "\x7b\x7d" []
    (by simp [List.lookup]) rfl

end ProtossSummary
